import Mathlib

/-!
# Verification of the Alzheimer's Pathway Explorer script

A shallow embedding of `src/streamlit_app.py`: the graph data model, the
biomarker filter, the render adapter's node styling, the KEGG description
extraction, and the top-level load/fetch flow, together with theorems
checking the specification's claims against this embedding.

Python strings are modelled as Lean `String` (a list of `Char`); the string
primitives the script uses (`str.lower`, the `in` substring test, `str.split`
indexing, `str.strip`) are embedded as structurally recursive functions on
`List Char`, so that every definition evaluates by `decide`/`rfl`.
Lowercasing is per-character (`Char.toLower`), which agrees with Python's
`str.lower` on the ASCII data handled here.
-/

namespace AlzApp

/-! ## String primitives -/

/-- `startsWithL s pat` : does the character list `s` start with `pat`?
Embeds the prefix test underlying Python's substring search. -/
def startsWithL : List Char → List Char → Bool
  | _, [] => true
  | [], _ :: _ => false
  | c :: cs, p :: ps => p == c && startsWithL cs ps

/-- `containsL pat s` embeds Python's substring test `pat in s`. -/
def containsL (pat : List Char) : List Char → Bool
  | [] => pat.isEmpty
  | c :: cs => startsWithL (c :: cs) pat || containsL pat cs

/-- Everything strictly after the first occurrence of `pat` in `s`
(`[]` when `pat` does not occur). -/
def afterFirst (pat : List Char) : List Char → List Char
  | [] => []
  | c :: cs =>
    if startsWithL (c :: cs) pat then List.drop pat.length (c :: cs)
    else afterFirst pat cs

/-- Everything strictly before the first occurrence of `pat` in `s`
(all of `s` when `pat` does not occur).  `beforeFirst pat s` is Python's
`s.split(pat)[0]`. -/
def beforeFirst (pat : List Char) : List Char → List Char
  | [] => []
  | c :: cs =>
    if startsWithL (c :: cs) pat then []
    else c :: beforeFirst pat cs

/-- Python's `str.strip()`: drop leading and trailing whitespace. -/
def trimL (s : List Char) : List Char :=
  ((s.dropWhile Char.isWhitespace).reverse.dropWhile Char.isWhitespace).reverse

/-- Python's `str.lower()` (per-character; agrees on ASCII). -/
def pyLower (s : String) : String := ⟨s.data.map Char.toLower⟩

/-- Python's `pat in s` substring test on `String`. -/
def pyIn (pat s : String) : Bool := containsL pat.data s.data

/-- Substring containment as a proposition: `pat` occurs inside `s`. -/
def ContainsSub (pat s : List Char) : Prop := ∃ l r, s = l ++ pat ++ r

theorem startsWithL_iff (s pat : List Char) :
    startsWithL s pat = true ↔ ∃ t, s = pat ++ t := by
  induction pat generalizing s with
  | nil => simp [startsWithL]
  | cons p ps ih =>
    cases s with
    | nil => simp [startsWithL]
    | cons c cs =>
      simp only [startsWithL, Bool.and_eq_true, beq_iff_eq, ih, List.cons_append,
        List.cons.injEq]
      constructor
      · rintro ⟨rfl, t, rfl⟩; exact ⟨t, rfl, rfl⟩
      · rintro ⟨t, rfl, rfl⟩; exact ⟨rfl, t, rfl⟩

theorem containsL_iff (pat s : List Char) :
    containsL pat s = true ↔ ContainsSub pat s := by
  induction s with
  | nil =>
    simp only [containsL, List.isEmpty_iff, ContainsSub]
    constructor
    · rintro rfl; exact ⟨[], [], rfl⟩
    · rintro ⟨l, r, h⟩
      exact (List.append_eq_nil.mp (List.append_eq_nil.mp h.symm).1).2
  | cons c cs ih =>
    simp only [containsL, Bool.or_eq_true, startsWithL_iff, ih, ContainsSub]
    constructor
    · rintro (⟨t, h⟩ | ⟨l, r, h⟩)
      · exact ⟨[], t, by simp [h]⟩
      · exact ⟨c :: l, r, by simp [h]⟩
    · rintro ⟨l, r, h⟩
      cases l with
      | nil => exact Or.inl ⟨r, by simpa using h⟩
      | cons x xs =>
        right
        rcases List.cons.injEq .. ▸ h with ⟨rfl, h2⟩
        exact ⟨xs, r, h2⟩

theorem beforeFirst_of_not_contains (pat s : List Char)
    (h : containsL pat s = false) : beforeFirst pat s = s := by
  induction s with
  | nil => rfl
  | cons c cs ih =>
    simp only [containsL, Bool.or_eq_false_iff] at h
    simp [beforeFirst, h.1, ih h.2]

theorem contains_iff_mem (l : List String) (a : String) :
    l.contains a = true ↔ a ∈ l := by
  simp [List.contains, List.elem_iff]

/-! ## Data model

A `networkx.DiGraph` as the script uses it: a node is a key (the KEGG entry
id) carrying a `name`, `label` and `type` attribute; a directed edge is a
pair of endpoint keys carrying a relation-type attribute.  `networkx`
guarantees that every edge's endpoints exist as nodes (`DiGraph.wf` below);
theorems that need this invariant take it as a hypothesis. -/

structure NodeData where
  name : String
  label : String
  type : String
deriving DecidableEq

structure DiGraph where
  nodes : List (String × NodeData)
  edges : List (String × String × String)
deriving DecidableEq

def DiGraph.nodeIds (g : DiGraph) : List String := g.nodes.map Prod.fst

/-- The `networkx` invariant: every edge endpoint is a node key. -/
def DiGraph.wf (g : DiGraph) : Prop :=
  ∀ e ∈ g.edges, e.1 ∈ g.nodeIds ∧ e.2.1 ∈ g.nodeIds

instance (g : DiGraph) : Decidable g.wf := by
  unfold DiGraph.wf; infer_instance

/-- `g.subgraph(ns)` from `networkx`: the node-induced subgraph — the nodes
of `g` whose key is in `ns`, and every edge of `g` with both endpoints in
`ns`.  The script's `.copy()` is the identity in this value semantics. -/
def DiGraph.inducedSubgraph (g : DiGraph) (ns : List String) : DiGraph :=
  { nodes := g.nodes.filter (fun nd => ns.contains nd.1)
    edges := g.edges.filter (fun e => ns.contains e.1 && ns.contains e.2.1) }

/-- A parsed KGML pathway document: entries (id, name, label, type) and
relations (entry1 id, entry2 id, relation type). -/
structure PathwayEntry where
  id : String
  name : String
  label : String
  type : String
deriving DecidableEq

structure PathwayDoc where
  entries : List PathwayEntry
  relations : List (String × String × String)
deriving DecidableEq

/-! ## Pathway loader (lines 26–36)

`REST.kegg_get` and `KGML_parser.read` are external collaborators; the
embedding abstracts them as an environment.  The fetch at line 28 is NOT
inside any `try`, so a fetch error propagates out of the script run;
the parse at line 33 is guarded (`st.error` + `st.stop`). -/

structure LoaderEnv where
  /-- `os.path.exists(xml_path)` (line 26). -/
  xmlExists : Bool
  /-- content of `hsa05010.xml` when it exists. -/
  cachedText : String
  /-- result of `REST.kegg_get("hsa05010", "kgml").read()` (line 28). -/
  fetchPathway : Except String String
  /-- `KGML_parser.read` applied to the file's text (line 33). -/
  parseKGML : String → Except String PathwayDoc

/-- Outcome of the load: an exception that escaped the script uncaught, a
graceful user-visible halt (`st.error` + `st.stop`), or a parsed document. -/
inductive LoadOutcome
  | crashed (e : String)
  | halted (msg : String)
  | parsed (doc : PathwayDoc)
deriving DecidableEq

/-- Lines 26–36.  If the cache file is absent the pathway is fetched — with
no surrounding `try`, so a service error becomes `crashed`.  Parsing is
wrapped in `try`/`except`: a parse error becomes `halted` with the
user-facing message of line 35. -/
def loadPathway (env : LoaderEnv) : LoadOutcome :=
  let fileText : Except String String :=
    if env.xmlExists then Except.ok env.cachedText else env.fetchPathway
  match fileText with
  | Except.error e => LoadOutcome.crashed e
  | Except.ok txt =>
    match env.parseKGML txt with
    | Except.error e => LoadOutcome.halted ("❌ Failed to parse pathway file: " ++ e)
    | Except.ok doc => LoadOutcome.parsed doc

/-! ## Graph construction (lines 38–41)

Line 38 creates `G = nx.DiGraph()`.  The `# --- Build Graph ---` comment
follows, but no statement ever adds a node or an edge: the parsed `pathway`
is never consulted.  The graph-construction step, as a function of the
parsed document, is therefore the constant empty graph. -/

def buildGraph (_doc : PathwayDoc) : DiGraph := { nodes := [], edges := [] }

/-- The script's `G` (line 38): an empty directed graph. -/
def G : DiGraph := { nodes := [], edges := [] }

/-! ## Biomarker filter (lines 57–71)

Lines 42–52 are a near-duplicate first version keyed on a `search_text`
attribute; its `subgraph` is immediately overwritten by the second version
below, which is the one the renderer consumes. -/

/-- Lines 57–59. -/
def matches_biomarker (label name : String) (biomarkers : List String) : Bool :=
  let text := pyLower (label ++ " " ++ name)
  biomarkers.any (fun bio => pyIn (pyLower bio) text)

/-- Lines 61–64: the node keys whose data matches a selected biomarker
(`d.get("label", "")` / `d.get("name", "")` are the `label`/`name`
attributes, defaulting to the empty string). -/
def sub_nodes (g : DiGraph) (selected : List String) : List String :=
  (g.nodes.filter (fun nd => matches_biomarker nd.2.label nd.2.name selected)).map Prod.fst

/-- Lines 66–71 as a pure function: the resulting `subgraph`, paired with
`true` when the `st.warning` "showing full pathway" branch was taken.  In
the fallback branch the result is the input graph itself (`subgraph = G`);
in the other branch it is `G.subgraph(sub_nodes).copy()`. -/
def filterGraph (g : DiGraph) (selected : List String) : DiGraph × Bool :=
  let sn := sub_nodes g selected
  if sn.isEmpty then (g, true) else (g.inducedSubgraph sn, false)

/-- Lines 61–71 in state-passing form, making the effect on the input graph
explicit: every statement of the section only reads `G` (`G.nodes(...)`,
`G.subgraph(...).copy()`), so the third component is the value of `G`
after the section. Returns (subgraph, warned, G afterwards). -/
def filterSection (g : DiGraph) (selected : List String) : DiGraph × Bool × DiGraph :=
  let sn := sub_nodes g selected
  if sn.isEmpty then (g, true, g) else (g.inducedSubgraph sn, false, g)

/-! ## Render adapter (lines 75–100) -/

/-- A PyVis `Network` as `net.from_nx(subgraph)` fills it: the subgraph's
node keys and directed edges. -/
structure Network where
  nodes : List String
  edges : List (String × String)
deriving DecidableEq

def Network.fromNx (g : DiGraph) : Network :=
  { nodes := g.nodeIds, edges := g.edges.map (fun e => (e.1, e.2.1)) }

/-- Line 89: does the node's label case-insensitively contain a selected
biomarker?  (`bio.lower() in data.get("label", "").lower()`). -/
def labelMatches (label : String) (selected : List String) : Bool :=
  selected.any (fun bio => pyIn (pyLower bio) (pyLower label))

/-- Lines 88–100: the color and size assigned to a node, first matching
rule wins. -/
def nodeVisual (data : NodeData) (selected : List String) : String × Nat :=
  if labelMatches data.label selected then ("#FF5252", 25)
  else if data.type == "gene" then ("#4CAF50", 18)
  else if data.type == "compound" then ("#2196F3", 15)
  else ("#FFC107", 12)

/-! ## Biomarker information panel (lines 116–127)

`data.split("DEFINITION")[1]` is the chunk of `data` strictly between the
first occurrence of `"DEFINITION"` and the next occurrence of
`"DEFINITION"` (to the end of the text when there is no second
occurrence); on that chunk, `.split("PATHWAY")[0]` is the part strictly
before the first `"PATHWAY"` (the whole chunk when none occurs).  Both are
expressed below with `afterFirst`/`beforeFirst`, which implement exactly
the non-overlapping left-to-right occurrence search of Python `split`. -/

/-- Line 121: `data.split("DEFINITION")[1].split("PATHWAY")[0].strip()`.
Only evaluated under the guard `"DEFINITION" in data` (line 120), which
makes the `[1]` index safe. -/
def extractDesc (data : String) : String :=
  let chunk1 := beforeFirst "DEFINITION".data (afterFirst "DEFINITION".data data.data)
  ⟨trimL (beforeFirst "PATHWAY".data chunk1)⟩

/-- Modelled from the spec's words (section 4.5 / claim C8): "the substring
between the first DEFINITION marker and the next PATHWAY marker, trimmed"
— everything after the first `"DEFINITION"`, cut at the first following
`"PATHWAY"`, trimmed.  Kept separate from `extractDesc` (the code's
behaviour) so the two can be compared. -/
def specDescBetweenMarkers (data : String) : String :=
  ⟨trimL (beforeFirst "PATHWAY".data (afterFirst "DEFINITION".data data.data))⟩

/-- The KEGG link markdown of line 125. -/
def keggLink (bio : String) : String :=
  "[🔗 Open in KEGG](https://www.kegg.jp/dbget-bin/www_bget?hsa:" ++ bio ++ ")"

/-- The body of the loop at lines 117–127 for one biomarker, as the list of
markdown strings written to the expander.  `fetch` abstracts
`REST.kegg_get(f"hsa:{bio}").read()`: on an exception anywhere in the
`try` block, only the `except` branch's "Information unavailable" line is
written; on success, a description line is written only when the record
contains `"DEFINITION"`, and the KEGG link is always written. -/
def infoEntry (fetch : Except String String) (bio : String) : List String :=
  match fetch with
  | Except.error e => ["❌ Information unavailable (" ++ e ++ ")"]
  | Except.ok data =>
    (if pyIn "DEFINITION" data then ["**Description:** " ++ extractDesc data] else [])
      ++ [keggLink bio]

/-- Lines 116–127: the whole panel, one entry per selected biomarker; each
iteration's `try` is independent of the others. -/
def infoPanel (fetchOf : String → Except String String) (selected : List String) :
    List (List String) :=
  selected.map (fun bio => infoEntry (fetchOf bio) bio)

/-! ## Helper lemmas -/

theorem mem_nodeIds_induced (g : DiGraph) (ns : List String) (x : String) :
    x ∈ (g.inducedSubgraph ns).nodeIds ↔ x ∈ g.nodeIds ∧ x ∈ ns := by
  simp only [DiGraph.inducedSubgraph, DiGraph.nodeIds, List.mem_map, List.mem_filter,
    contains_iff_mem]
  constructor
  · rintro ⟨a, ⟨ha, hns⟩, rfl⟩
    exact ⟨⟨a, ha, rfl⟩, hns⟩
  · rintro ⟨⟨a, ha, rfl⟩, hns⟩
    exact ⟨a, ⟨ha, hns⟩, rfl⟩

theorem mem_edges_induced (g : DiGraph) (ns : List String) (e : String × String × String) :
    e ∈ (g.inducedSubgraph ns).edges ↔ e ∈ g.edges ∧ e.1 ∈ ns ∧ e.2.1 ∈ ns := by
  simp [DiGraph.inducedSubgraph, List.mem_filter, Bool.and_eq_true, contains_iff_mem,
    and_assoc]

theorem sub_nodes_empty_of_no_selection (g : DiGraph) : sub_nodes g [] = [] := by
  simp [sub_nodes, matches_biomarker]

/-! ## Example inputs -/

/-- The example pathway document of the spec's testable property for the
graph builder: entries g1 (gene, APP) and c1 (compound, X), one relation
g1 → c1. -/
def exampleDoc : PathwayDoc :=
  { entries := [⟨"g1", "APP", "APP", "gene"⟩, ⟨"c1", "X", "X", "compound"⟩]
    relations := [("g1", "c1", "activation")] }

/-- The graph the spec's graph builder would produce from `exampleDoc`;
used as a concrete input to the filter/render theorems. -/
def gEx : DiGraph :=
  { nodes := [("g1", ⟨"APP", "APP", "gene"⟩), ("c1", ⟨"X", "X", "compound"⟩)]
    edges := [("g1", "c1", "activation")] }

def emptyDoc : PathwayDoc := { entries := [], relations := [] }

/-- An environment where the cache file is absent and the pathway fetch
fails with a service error. -/
def crashEnv : LoaderEnv :=
  { xmlExists := false, cachedText := "", fetchPathway := Except.error "service unavailable"
    parseKGML := fun _ => Except.ok emptyDoc }

/-- An environment where the cached file exists but fails to parse. -/
def parseFailEnv : LoaderEnv :=
  { xmlExists := true, cachedText := "<truncated", fetchPathway := Except.ok ""
    parseKGML := fun _ => Except.error "truncated document" }

/-! ## Claims -/

/-- C1: the claim says the graph builder adds one node per gene/enzyme/
compound entry and one edge per resolved relation (2 nodes and 1 edge on
the example document).  The script never populates `G`: the graph
construction step is the constant empty graph, so on the example document
it yields 0 nodes and 0 edges, not 2 and 1. -/
theorem c1_build_leaves_graph_empty :
    buildGraph exampleDoc = { nodes := [], edges := [] } ∧
    ¬((buildGraph exampleDoc).nodes.length = 2 ∧
      (buildGraph exampleDoc).edges.length = 1) := by
  decide

/-- C2: for every selection set, the graph `G` handed to the filter and the
renderer is empty, so the filter's node list is empty, the "showing full
pathway" warning branch is taken, and the rendered network has zero nodes
and zero edges. -/
theorem c2_rendered_network_always_empty (selected : List String) :
    G = { nodes := [], edges := [] } ∧
    sub_nodes G selected = [] ∧
    filterGraph G selected = (G, true) ∧
    Network.fromNx (filterGraph G selected).1 = { nodes := [], edges := [] } :=
  ⟨rfl, rfl, rfl, rfl⟩

/-- C3: for every well-formed graph and selection set, the filter returns a
graph whose node set is a subset of the input's and whose edge set is
exactly the input's edges with both endpoints in the returned node set. -/
theorem c3_filter_is_induced_subgraph (g : DiGraph) (S : List String) (hwf : g.wf) :
    (∀ n ∈ ((filterGraph g S).1).nodeIds, n ∈ g.nodeIds) ∧
    (∀ e, e ∈ ((filterGraph g S).1).edges ↔
      e ∈ g.edges ∧ e.1 ∈ ((filterGraph g S).1).nodeIds ∧
        e.2.1 ∈ ((filterGraph g S).1).nodeIds) := by
  unfold filterGraph
  by_cases h : (sub_nodes g S).isEmpty <;> simp only [h, if_true, if_false, Bool.false_eq_true]
  · constructor
    · exact fun n hn => hn
    · exact fun e => ⟨fun he => ⟨he, (hwf e he).1, (hwf e he).2⟩, fun he => he.1⟩
  · constructor
    · exact fun n hn => ((mem_nodeIds_induced g _ n).mp hn).1
    · intro e
      rw [mem_edges_induced, mem_nodeIds_induced, mem_nodeIds_induced]
      constructor
      · rintro ⟨he, h1, h2⟩
        exact ⟨he, ⟨(hwf e he).1, h1⟩, ⟨(hwf e he).2, h2⟩⟩
      · rintro ⟨he, ⟨-, h1⟩, ⟨-, h2⟩⟩
        exact ⟨he, h1, h2⟩

/-- C3 witness: the theorem instantiated on the two-node example graph with
selection ["APP"] (the non-fallback branch: node c1 and the edge are
dropped). -/
theorem c3_witness :
    gEx.wf ∧
    ((∀ n ∈ ((filterGraph gEx ["APP"]).1).nodeIds, n ∈ gEx.nodeIds) ∧
     (∀ e, e ∈ ((filterGraph gEx ["APP"]).1).edges ↔
       e ∈ gEx.edges ∧ e.1 ∈ ((filterGraph gEx ["APP"]).1).nodeIds ∧
         e.2.1 ∈ ((filterGraph gEx ["APP"]).1).nodeIds)) :=
  ⟨by decide, c3_filter_is_induced_subgraph gEx ["APP"] (by decide)⟩

/-- C4: when the selection is empty, or no node matches, the filter returns
the original graph itself together with the "showing full pathway"
warning.  (Object identity is modelled by the result being definitionally
the input graph, not a reconstruction.) -/
theorem c4_fallback_returns_original (g : DiGraph) (S : List String)
    (h : S = [] ∨ sub_nodes g S = []) : filterGraph g S = (g, true) := by
  have hsn : sub_nodes g S = [] := by
    rcases h with rfl | h
    · exact sub_nodes_empty_of_no_selection g
    · exact h
  simp [filterGraph, hsn]

/-- C4 witness: on the example graph with a selection matching no node, the
filter returns the input graph and warns. -/
theorem c4_witness :
    ((["ZZZ"] : List String) = [] ∨ sub_nodes gEx ["ZZZ"] = []) ∧
    filterGraph gEx ["ZZZ"] = (gEx, true) :=
  ⟨Or.inr (by decide), c4_fallback_returns_original gEx ["ZZZ"] (Or.inr (by decide))⟩

/-- C5: the filter section never mutates its input graph: in the
state-passing embedding the graph after the section (nodes, edges and node
attributes) is the input graph, and the section's subgraph/warning results
agree with the pure `filterGraph`. -/
theorem c5_filter_never_mutates (g : DiGraph) (S : List String) :
    (filterSection g S).2.2 = g ∧
    (filterSection g S).1 = (filterGraph g S).1 ∧
    (filterSection g S).2.1 = (filterGraph g S).2 := by
  unfold filterSection filterGraph
  by_cases h : (sub_nodes g S).isEmpty <;> simp [h]

/-- C6: a node matches precisely when some selected biomarker, lowercased,
occurs as a substring of the lowercased "label name" text (label and name
joined by a space); in particular a node labeled "BACE1_HUMAN" matches the
selection ["bace1"]. -/
theorem c6_matching_predicate (label name : String) (S : List String) :
    (matches_biomarker label name S = true ↔
      ∃ bio ∈ S, ContainsSub (pyLower bio).data (pyLower (label ++ " " ++ name)).data) ∧
    matches_biomarker "BACE1_HUMAN" "" ["bace1"] = true := by
  constructor
  · simp only [matches_biomarker, List.any_eq_true, pyIn, containsL_iff]
  · decide

/-- C7: node styling is priority-ordered with the biomarker match first: a
label matching any selected biomarker yields the red high-emphasis visual
("#FF5252", size 25) whatever the node's type; otherwise type gene yields
green size 18, type compound blue size 15, anything else amber size 12. -/
theorem c7_visual_priority (d : NodeData) (S : List String) :
    (labelMatches d.label S = true → nodeVisual d S = ("#FF5252", 25)) ∧
    (labelMatches d.label S = false → d.type = "gene" →
      nodeVisual d S = ("#4CAF50", 18)) ∧
    (labelMatches d.label S = false → d.type ≠ "gene" → d.type = "compound" →
      nodeVisual d S = ("#2196F3", 15)) ∧
    (labelMatches d.label S = false → d.type ≠ "gene" → d.type ≠ "compound" →
      nodeVisual d S = ("#FFC107", 12)) := by
  refine ⟨fun h => ?_, fun h hg => ?_, fun h hg hc => ?_, fun h hg hc => ?_⟩ <;>
    simp [nodeVisual, h, beq_iff_eq, *]

/-- C7 witness: the four styling rules exercised on concrete nodes — in
particular a compound-typed node whose label matches a selected biomarker
is styled red, not blue. -/
theorem c7_witness :
    nodeVisual ⟨"x", "APP_HUMAN", "compound"⟩ ["app"] = ("#FF5252", 25) ∧
    nodeVisual ⟨"x", "GSK3B", "gene"⟩ ["zzz"] = ("#4CAF50", 18) ∧
    nodeVisual ⟨"x", "C00027", "compound"⟩ ["zzz"] = ("#2196F3", 15) ∧
    nodeVisual ⟨"x", "map", "map"⟩ ["zzz"] = ("#FFC107", 12) :=
  ⟨(c7_visual_priority ⟨"x", "APP_HUMAN", "compound"⟩ ["app"]).1 (by decide),
   (c7_visual_priority ⟨"x", "GSK3B", "gene"⟩ ["zzz"]).2.1 (by decide) rfl,
   (c7_visual_priority ⟨"x", "C00027", "compound"⟩ ["zzz"]).2.2.1 (by decide)
     (by decide) rfl,
   (c7_visual_priority ⟨"x", "map", "map"⟩ ["zzz"]).2.2.2 (by decide) (by decide)
     (by decide)⟩

/-- C8 counterexample: on a record whose text contains a second DEFINITION
marker before the PATHWAY marker, the code's extraction stops at the
second DEFINITION and yields "a", while the claimed "substring between the
first DEFINITION marker and the next PATHWAY marker" is "a DEFINITION b". -/
theorem c8_counterexample :
    pyIn "DEFINITION" "DEFINITION a DEFINITION b PATHWAY c" = true ∧
    extractDesc "DEFINITION a DEFINITION b PATHWAY c" = "a" ∧
    specDescBetweenMarkers "DEFINITION a DEFINITION b PATHWAY c" = "a DEFINITION b" ∧
    extractDesc "DEFINITION a DEFINITION b PATHWAY c" ≠
      specDescBetweenMarkers "DEFINITION a DEFINITION b PATHWAY c" := by
  decide

/-- C8 (amended): for every record text in which the DEFINITION marker does
not occur a second time, the extracted description is exactly the trimmed
substring between the first DEFINITION marker and the next PATHWAY
marker. -/
theorem c8_extraction_between_markers (data : String)
    (h : containsL "DEFINITION".data (afterFirst "DEFINITION".data data.data) = false) :
    extractDesc data = specDescBetweenMarkers data := by
  unfold extractDesc specDescBetweenMarkers
  rw [beforeFirst_of_not_contains _ _ h]

/-- C8 witness: on "DEFINITION Some text PATHWAY ..." the hypothesis holds
and the extraction yields exactly "Some text". -/
theorem c8_witness :
    containsL "DEFINITION".data
      (afterFirst "DEFINITION".data ("DEFINITION Some text PATHWAY ...").data) = false ∧
    extractDesc "DEFINITION Some text PATHWAY ..." = "Some text" :=
  ⟨by decide,
   (c8_extraction_between_markers "DEFINITION Some text PATHWAY ..." (by decide)).trans
     (by decide)⟩

/-- C9 counterexample: for a successfully fetched record lacking the
DEFINITION marker, the panel entry shows only the KEGG link — it does not
report an "unavailable" message as the claim states. -/
theorem c9_counterexample :
    infoPanel (fun _ => Except.ok "FOO BAR") ["APP"] = [[keggLink "APP"]] ∧
    pyIn "unavailable" (keggLink "APP") = false := by
  decide

/-- C9 (amended): if the fetch raises, that biomarker's panel entry is the
single "Information unavailable" line; if the fetch succeeds but the
record lacks the DEFINITION marker, the entry is the single KEGG-link line
(no description, no unavailable message, no exception); each panel
position is computed from that biomarker's own fetch result alone, so one
failure cannot affect the other entries. -/
theorem c9_info_failure_isolated (fetchOf : String → Except String String)
    (selected : List String) (bio e data : String) :
    infoEntry (Except.error e) bio = ["❌ Information unavailable (" ++ e ++ ")"] ∧
    (pyIn "DEFINITION" data = false → infoEntry (Except.ok data) bio = [keggLink bio]) ∧
    (∀ i : Nat, (infoPanel fetchOf selected)[i]? =
      selected[i]?.map (fun b => infoEntry (fetchOf b) b)) := by
  refine ⟨rfl, fun h => by simp [infoEntry, h], fun i => ?_⟩
  simp [infoPanel, List.getElem?_map]

/-- C9 witness: the amended theorem at a failing fetch, at a record without
the marker, and at panel position 0. -/
theorem c9_witness :
    infoEntry (Except.error "timeout") "APP" =
      ["❌ Information unavailable (" ++ "timeout" ++ ")"] ∧
    infoEntry (Except.ok "FOO BAR") "APP" = [keggLink "APP"] ∧
    (infoPanel (fun _ => Except.error "down") ["APP", "MAPT"])[0]? =
      (["APP", "MAPT"] : List String)[0]?.map
        (fun b => infoEntry (Except.error "down") b) :=
  ⟨(c9_info_failure_isolated (fun _ => Except.error "down") ["APP", "MAPT"]
      "APP" "timeout" "FOO BAR").1,
   (c9_info_failure_isolated (fun _ => Except.error "down") ["APP", "MAPT"]
      "APP" "timeout" "FOO BAR").2.1 (by decide),
   (c9_info_failure_isolated (fun _ => Except.error "down") ["APP", "MAPT"]
      "APP" "timeout" "FOO BAR").2.2 0⟩

/-- C10 counterexample: with the cache file absent and the pathway fetch
failing with a service error, the error propagates out of the script
uncaught — the pathway-by-accession fetch is not wrapped in any handler,
so the claim that every service error of both query shapes is caught
fails. -/
theorem c10_counterexample :
    loadPathway crashEnv = LoadOutcome.crashed "service unavailable" := rfl

/-- C10 (amended): per-gene record fetch errors are caught and converted to
a user-visible "unavailable" line, and pathway parse failures are caught
and halt with a user-visible error; but a service error in the
pathway-by-accession fetch itself escapes the render pass as an unhandled
crash. -/
theorem c10_fetch_error_handling (env : LoaderEnv) (e bio : String) :
    (env.xmlExists = false → env.fetchPathway = Except.error e →
      loadPathway env = LoadOutcome.crashed e) ∧
    (env.xmlExists = true → env.parseKGML env.cachedText = Except.error e →
      loadPathway env = LoadOutcome.halted ("❌ Failed to parse pathway file: " ++ e)) ∧
    infoEntry (Except.error e) bio = ["❌ Information unavailable (" ++ e ++ ")"] := by
  refine ⟨fun h1 h2 => ?_, fun h1 h2 => ?_, rfl⟩
  · simp [loadPathway, h1, h2]
  · simp [loadPathway, h1, h2]

/-- C10 witness: the amended theorem at a failing pathway fetch, a failing
parse, and a failing gene-record fetch. -/
theorem c10_witness :
    loadPathway crashEnv = LoadOutcome.crashed "service unavailable" ∧
    loadPathway parseFailEnv =
      LoadOutcome.halted ("❌ Failed to parse pathway file: " ++ "truncated document") ∧
    infoEntry (Except.error "gene fetch failed") "MAPT" =
      ["❌ Information unavailable (" ++ "gene fetch failed" ++ ")"] :=
  ⟨(c10_fetch_error_handling crashEnv "service unavailable" "MAPT").1 rfl rfl,
   (c10_fetch_error_handling parseFailEnv "truncated document" "MAPT").2.1 rfl rfl,
   (c10_fetch_error_handling crashEnv "gene fetch failed" "MAPT").2.2⟩

end AlzApp
